import Mathlib

/-!
Shallow embedding of the chat-session core of the `desafio_fullstack`
frontend (Angular, TypeScript), together with proofs about the claims on
its specification.

Embedded source files:
* `frontend/src/app/models/classificacao.model.ts` — data model,
* `frontend/src/app/components/email-classifier-chat/email-classifier-chat.component.ts`
  — the chat-session controller (`EmailClassifierChatComponent`),
* the `ChatInputComponent` (input staging and file validation).

Conventions of the embedding:
* TypeScript optional fields become `Option` fields; a field that is
  `undefined` in TS is `none` here (JS treats `undefined` as falsy).
* `Date.now()` / `new Date()` values are environment inputs, passed to each
  operation as explicit `Nat` arguments.
* Message ids: the source builds the string
  `msg-(counter)-(time)`, where the decimal rendering of `counter`
  contains no dash, so two id strings are equal iff their counter and time
  components are equal.  We model an id as the pair of those components;
  equality of the model ids coincides with equality of the source strings.
* `confianca` (a JS number) is modeled as a rational number.
* Asynchronous completion callbacks (`subscribe` `next`/`error`) are
  modeled as events delivered by the environment; the single-threaded event
  loop of the browser becomes a sequence of atomic state transitions.
-/

/-- `AIProvider` from `classificacao.model.ts`. -/
inductive AIProvider where
  | openai
  | gemini
deriving DecidableEq, Repr

/-- `CategoriaEmail` from `classificacao.model.ts`. -/
inductive CategoriaEmail where
  | produtivo
  | improdutivo
deriving DecidableEq, Repr

/-- `ClassificacaoResultado` from `classificacao.model.ts`. -/
structure ClassificacaoResultado where
  categoria : CategoriaEmail
  confianca : ℚ
  resposta_sugerida : String
deriving DecidableEq, Repr

/-- `ProviderInfo` from `classificacao.model.ts`. -/
structure ProviderInfo where
  available : Bool
  model : String
deriving DecidableEq, Repr

/-- `ProvidersResponse` from `classificacao.model.ts` (the `providers`
record with its two fields is inlined). -/
structure ProvidersResponse where
  default : AIProvider
  openai : ProviderInfo
  gemini : ProviderInfo
deriving DecidableEq, Repr

/-- The `tipo` discriminator of `ChatMessage`: the literal union
`'user' | 'ai'`. -/
inductive TipoMensagem where
  | user
  | ai
deriving DecidableEq, Repr

/-- A message id, i.e. the source string
`msg-(counter)-(time)`; see the header comment for why the pair
is equivalent to the string. -/
structure MsgId where
  contador : Nat
  tempo : Nat
deriving DecidableEq, Repr

/-- The `arquivo` attachment record `(nome, tamanho)` of a user message
(and, for the input component, a selected `File`, of which only `name`
and `size` are ever read). -/
structure Arquivo where
  nome : String
  tamanho : Nat
deriving DecidableEq, Repr

/-- `ChatMessage` from `chat-message.component.ts`. -/
structure ChatMessage where
  id : MsgId
  tipo : TipoMensagem
  conteudo : Option String := none
  arquivo : Option Arquivo := none
  resultado : Option ClassificacaoResultado := none
  provider : Option AIProvider := none
  timestamp : Nat
  carregando : Option Bool := none
  emailOriginal : Option String := none
deriving DecidableEq, Repr

namespace EmailClassifierChat

/-- The mutable state of `EmailClassifierChatComponent`: its four signals
plus the private `messageIdCounter`.  (`shouldScrollToBottom` and the
`messagesContainer` view reference only drive DOM scrolling and carry no
session information; they are omitted.) -/
structure ChatState where
  mensagens : List ChatMessage
  carregando : Bool
  providerSelecionado : AIProvider
  providers : Option ProvidersResponse
  messageIdCounter : Nat
deriving DecidableEq, Repr

/-- The state right after construction: all signals at their initial
values.  The constructor only issues the `getProviders` request (its
completion is a separate event) and reads nothing else. -/
def estadoInicial : ChatState :=
  { mensagens := []
    carregando := false
    providerSelecionado := .openai
    providers := none
    messageIdCounter := 0 }

/-- `gerarId`, inlined with the `++this.messageIdCounter` side effect made
explicit: the id built when the counter was just bumped to `contador`, at
wall-clock time `agora`. -/
def gerarId (contador : Nat) (agora : Nat) : MsgId :=
  { contador := contador, tempo := agora }

/-- `carregarProviders` success callback: store the response and select its
default provider. -/
def providersCarregados (resposta : ProvidersResponse) (s : ChatState) : ChatState :=
  { s with providers := some resposta, providerSelecionado := resposta.default }

/-- `carregarProviders` error callback: fall back to `'openai'`. -/
def providersFalharam (s : ChatState) : ChatState :=
  { s with providerSelecionado := .openai }

/-- `onProviderChange`. -/
def onProviderChange (provider : AIProvider) (s : ChatState) : ChatState :=
  { s with providerSelecionado := provider }

/-- `onEnviarTexto(data)`.  `tidU tsU tidA tsA` are the four clock samples
taken while building the two messages (`Date.now()` inside each `gerarId`,
then `new Date()` for each `timestamp`).  Issuing the HTTP request has no
state effect; its completion arrives later as a `sucesso`/`erro` event
carrying the id of `aiLoadingMessage`. -/
def onEnviarTexto (conteudo : String) (provider : AIProvider)
    (tidU tsU tidA tsA : Nat) (s : ChatState) : ChatState :=
  let userMessage : ChatMessage :=
    { id := gerarId (s.messageIdCounter + 1) tidU
      tipo := .user
      conteudo := some conteudo
      timestamp := tsU }
  let aiLoadingMessage : ChatMessage :=
    { id := gerarId (s.messageIdCounter + 2) tidA
      tipo := .ai
      provider := some provider
      timestamp := tsA
      carregando := some true
      emailOriginal := some conteudo }
  { s with
    mensagens := s.mensagens ++ [userMessage, aiLoadingMessage]
    carregando := true
    messageIdCounter := s.messageIdCounter + 2 }

/-- `onEnviarArquivo(data)`; of the `File` only `name` and `size` are read. -/
def onEnviarArquivo (arquivo : Arquivo) (provider : AIProvider)
    (tidU tsU tidA tsA : Nat) (s : ChatState) : ChatState :=
  let userMessage : ChatMessage :=
    { id := gerarId (s.messageIdCounter + 1) tidU
      tipo := .user
      arquivo := some arquivo
      timestamp := tsU }
  let aiLoadingMessage : ChatMessage :=
    { id := gerarId (s.messageIdCounter + 2) tidA
      tipo := .ai
      provider := some provider
      timestamp := tsA
      carregando := some true }
  { s with
    mensagens := s.mensagens ++ [userMessage, aiLoadingMessage]
    carregando := true
    messageIdCounter := s.messageIdCounter + 2 }

/-- `handleSucesso(resultado, messageId, provider)`. -/
def handleSucesso (resultado : ClassificacaoResultado) (messageId : MsgId)
    (provider : AIProvider) (s : ChatState) : ChatState :=
  { s with
    mensagens := s.mensagens.map fun msg =>
      if msg.id = messageId then
        { msg with carregando := some false, resultado := some resultado,
                   provider := some provider }
      else msg
    carregando := false }

/-- The error detail extraction `error.error?.detail || 'Erro ao
classificar email. Tente novamente.'`: `detail` is `none` when the error
carries no body or the body has no `detail` field; the JS `||` also
replaces an empty-string detail by the fallback. -/
def mensagemErro (detail : Option String) : String :=
  match detail with
  | some d => if d = "" then "Erro ao classificar email. Tente novamente." else d
  | none => "Erro ao classificar email. Tente novamente."

/-- `handleErro(error, messageId)`. -/
def handleErro (detail : Option String) (messageId : MsgId) (s : ChatState) : ChatState :=
  { s with
    mensagens := s.mensagens.map fun msg =>
      if msg.id = messageId then
        { msg with carregando := some false,
                   resultado := some
                     { categoria := .improdutivo
                       confianca := 0
                       resposta_sugerida := "❌ Erro: " ++ mensagemErro detail } }
      else msg
    carregando := false }

/-- One event of the browser event loop touching the component: a user
intent (submit text/file, change provider) or the completion callback of
an outstanding HTTP request.  Completion events carry the data the
environment (network) chose. -/
inductive Evento where
  | enviarTexto (conteudo : String) (provider : AIProvider) (tidU tsU tidA tsA : Nat)
  | enviarArquivo (arquivo : Arquivo) (provider : AIProvider) (tidU tsU tidA tsA : Nat)
  | mudarProvider (provider : AIProvider)
  | provedores (resposta : ProvidersResponse)
  | provedoresErro
  | sucesso (resultado : ClassificacaoResultado) (messageId : MsgId) (provider : AIProvider)
  | erro (detail : Option String) (messageId : MsgId)
deriving DecidableEq, Repr

/-- The transition each event performs. -/
def passo (s : ChatState) : Evento → ChatState
  | .enviarTexto conteudo provider tidU tsU tidA tsA =>
      onEnviarTexto conteudo provider tidU tsU tidA tsA s
  | .enviarArquivo arquivo provider tidU tsU tidA tsA =>
      onEnviarArquivo arquivo provider tidU tsU tidA tsA s
  | .mudarProvider provider => onProviderChange provider s
  | .provedores resposta => providersCarregados resposta s
  | .provedoresErro => providersFalharam s
  | .sucesso resultado messageId provider => handleSucesso resultado messageId provider s
  | .erro detail messageId => handleErro detail messageId s

/-- Run a sequence of events from a state. -/
def executar (s : ChatState) : List Evento → ChatState
  | [] => s
  | e :: resto => executar (passo s e) resto

/-- The id-counter discipline the component maintains: message id counters
strictly increase along the log and never exceed `messageIdCounter`. -/
def idsDisciplinados (s : ChatState) : Prop :=
  s.mensagens.Pairwise (fun a b => a.id.contador < b.id.contador) ∧
  ∀ m ∈ s.mensagens, m.id.contador ≤ s.messageIdCounter

/-- The backend contract on completion data: a success callback carries a
`confianca` within `[0, 1]` (the HTTP contract is out of scope of the
frontend; failure callbacks carry no outcome). -/
def eventoBemFormado : Evento → Bool
  | .sucesso resultado _ _ =>
      decide (0 ≤ resultado.confianca) && decide (resultado.confianca ≤ 1)
  | _ => true

/-- Every resolved assistant entry holds an outcome, and that outcome's
`confianca` lies within `[0, 1]`. -/
def resultadosValidos (s : ChatState) : Prop :=
  ∀ m ∈ s.mensagens, m.tipo = .ai → m.carregando = some false →
    ∃ r, m.resultado = some r ∧ 0 ≤ r.confianca ∧ r.confianca ≤ 1

end EmailClassifierChat

namespace EmailClassifierChat

/-- The browser-level state: the component plus the `localStorage` area
where a per-browser chat history would live (one optional string cell per
key; a single cell suffices since one fixed key is at issue).  The
component source under `frontend/src/app` contains neither a read nor a
write of any storage API, so every transition leaves the cell untouched
and construction ignores it; this wrapper makes that explicit so it can be
proved. -/
structure EstadoNavegador where
  componente : ChatState
  historicoArmazenado : Option String
deriving DecidableEq, Repr

/-- Component construction inside a browser whose storage already holds
`historico`: the constructor runs (issuing only the `getProviders`
request) and performs no storage read. -/
def construir (historico : Option String) : EstadoNavegador :=
  { componente := estadoInicial, historicoArmazenado := historico }

/-- One event at browser level. -/
def passoNavegador (b : EstadoNavegador) (e : Evento) : EstadoNavegador :=
  { b with componente := passo b.componente e }

/-- Run a sequence of events at browser level. -/
def executarNavegador (b : EstadoNavegador) : List Evento → EstadoNavegador
  | [] => b
  | e :: resto => executarNavegador (passoNavegador b e) resto

end EmailClassifierChat

namespace ChatInputComponent

/-- JS `string.split('.')` over the character list of the string: the
groups of characters between the dots (empty groups included, as in JS). -/
def splitDot : List Char → List (List Char)
  | [] => [[]]
  | c :: resto =>
      if c = '.' then [] :: splitDot resto
      else
        match splitDot resto with
        | [] => [[c]]
        | grupo :: grupos => (c :: grupo) :: grupos

/-- `arquivo.name.split('.').pop()?.toLowerCase()`: the last dot-separated
group, lowercased.  (`split` never returns an empty array, so `pop` is
never `undefined`; the `getLastD` default is unreachable.) -/
def extensao (nome : String) : List Char :=
  ((splitDot nome.toList).getLastD []).map Char.toLower

/-- `const formatosSuportados = ['txt', 'pdf', 'eml', 'msg', 'mbox']`. -/
def formatosSuportados : List (List Char) :=
  ["txt", "pdf", "eml", "msg", "mbox"].map String.toList

/-- The state of `ChatInputComponent`: its four signals.  (`providers`,
`providerSelecionado` and `carregando` are Angular inputs owned by the
parent; `carregando` is passed to the operations that read it.) -/
structure InputState where
  conteudoEmail : String
  arquivoSelecionado : Option Arquivo
  menuProviderAberto : Bool
  erro : Option String
deriving DecidableEq, Repr

/-- The initial signal values. -/
def inputInicial : InputState :=
  { conteudoEmail := ""
    arquivoSelecionado := none
    menuProviderAberto := false
    erro := none }

/-- `onArquivoSelecionado(event)`, for an event whose input element holds
the file `arquivo` (when no file is present the handler does nothing to
the signals).  `!extensao` is true exactly when the popped group is the
empty string. -/
def onArquivoSelecionado (arquivo : Arquivo) (s : InputState) : InputState :=
  let ext := extensao arquivo.nome
  if ext = [] ∨ ¬ formatosSuportados.contains ext then
    { s with erro := some ("Formato não suportado. Use arquivos .txt, .pdf, .eml, .msg ou .mbox") }
  else if arquivo.tamanho > 5 * 1024 * 1024 then
    { s with erro := some ("Arquivo muito grande. Tamanho máximo: 5MB") }
  else
    { s with arquivoSelecionado := some arquivo
             conteudoEmail := ""
             erro := none }

/-- `limparArquivo()`. -/
def limparArquivo (s : InputState) : InputState :=
  { s with arquivoSelecionado := none }

/-- `toggleMenuProvider()`. -/
def toggleMenuProvider (s : InputState) : InputState :=
  { s with menuProviderAberto := !s.menuProviderAberto }

/-- `fecharMenu()`. -/
def fecharMenu (s : InputState) : InputState :=
  { s with menuProviderAberto := false }

/-- Modelled from the spec: the text-entry handler.  The textarea binding
that writes the typed text into `conteudoEmail` lives in the component's
template (`chat-input.component.html`), which is not among the provided
sources; per the spec, staging text clears a previously staged file
("staging text clears staged file and vice versa"). -/
def digitarTexto (texto : String) (s : InputState) : InputState :=
  { s with conteudoEmail := texto, arquivoSelecionado := none }

/-- `podeEnviar` (computed signal), with the `carregando` input passed
explicitly. -/
def podeEnviar (carregando : Bool) (s : InputState) : Bool :=
  !carregando && (s.conteudoEmail.trim.length > 0 || s.arquivoSelecionado.isSome)

/-- What `enviar()` emits to the parent component. -/
inductive Emissao where
  | texto (conteudo : String) (provider : AIProvider)
  | arquivoEscolhido (arquivo : Arquivo) (provider : AIProvider)
deriving DecidableEq, Repr

/-- `enviar()`: the emitted payload (if any) and the state afterwards.
`providerSelecionado` and `carregando` are the component's inputs at the
moment of the click. -/
def enviar (carregando : Bool) (provider : AIProvider) (s : InputState) :
    Option Emissao × InputState :=
  if !(podeEnviar carregando s) then (none, s)
  else
    match s.arquivoSelecionado with
    | some arquivo =>
        (some (.arquivoEscolhido arquivo provider), { s with arquivoSelecionado := none })
    | none =>
        (some (.texto s.conteudoEmail.trim provider), { s with conteudoEmail := "" })

/-- The user-driven events of the input component. -/
inductive EventoInput where
  | selecionar (arquivo : Arquivo)
  | digitar (texto : String)
  | limpar
  | alternarMenu
  | fechar
  | clicarEnviar (carregando : Bool) (provider : AIProvider)
deriving DecidableEq, Repr

/-- The transition each input event performs on the signals. -/
def passoInput (s : InputState) : EventoInput → InputState
  | .selecionar arquivo => onArquivoSelecionado arquivo s
  | .digitar texto => digitarTexto texto s
  | .limpar => limparArquivo s
  | .alternarMenu => toggleMenuProvider s
  | .fechar => fecharMenu s
  | .clicarEnviar carregando provider => (enviar carregando provider s).2

/-- Run a sequence of input events from a state. -/
def executarInput (s : InputState) : List EventoInput → InputState
  | [] => s
  | e :: resto => executarInput (passoInput s e) resto

/-- The staging exclusivity contract: whenever a file is staged, the staged
text is empty. -/
def exclusivos (s : InputState) : Prop :=
  s.arquivoSelecionado ≠ none → s.conteudoEmail = ""

end ChatInputComponent

namespace EmailClassifierChat

/-- Mapping an update that rewrites only entries with id `mid` over a log
that holds no such entry is the identity. -/
theorem mapa_intacto (mid : MsgId) (g : ChatMessage → ChatMessage) :
    ∀ l : List ChatMessage, (∀ m ∈ l, m.id ≠ mid) →
      (l.map fun m => if m.id = mid then g m else m) = l := by
  intro l h
  induction l with
  | nil => rfl
  | cons x xs ih =>
      have hx : x.id ≠ mid := h x (List.mem_cons_self x xs)
      have hxs := ih fun m hm => h m (List.mem_cons_of_mem x hm)
      simp only [List.map_cons, if_neg hx, hxs]

/-- The updated image of a log entry with the targeted id is an entry of
the mapped log. -/
theorem atualizado_presente (g : ChatMessage → ChatMessage) (mid : MsgId)
    (m : ChatMessage) {l : List ChatMessage} (hm : m ∈ l) (hid : m.id = mid) :
    g m ∈ l.map fun msg => if msg.id = mid then g msg else msg := by
  refine List.mem_map.mpr ⟨m, hm, ?_⟩
  simp only [if_pos hid]

theorem idsDisciplinados_inicial : idsDisciplinados estadoInicial := by
  constructor
  · exact List.Pairwise.nil
  · intro m hm
    cases hm

theorem id_handleSucesso (resultado : ClassificacaoResultado) (mid : MsgId)
    (provider : AIProvider) (m : ChatMessage) :
    (if m.id = mid then
        { m with carregando := some false, resultado := some resultado,
                 provider := some provider }
      else m).id = m.id := by
  by_cases h : m.id = mid <;> simp [h]

theorem id_handleErro (detail : Option String) (mid : MsgId) (m : ChatMessage) :
    (if m.id = mid then
        { m with carregando := some false,
                 resultado := some
                   { categoria := .improdutivo
                     confianca := 0
                     resposta_sugerida := "❌ Erro: " ++ mensagemErro detail } }
      else m).id = m.id := by
  by_cases h : m.id = mid <;> simp [h]

theorem idsDisciplinados_passo (s : ChatState) (e : Evento)
    (h : idsDisciplinados s) : idsDisciplinados (passo s e) := by
  obtain ⟨hp, hb⟩ := h
  cases e with
  | enviarTexto conteudo provider tidU tsU tidA tsA =>
      constructor
      · refine List.pairwise_append.mpr ⟨hp, ?_, ?_⟩
        · simp [gerarId]
        · intro a ha b hbm
          have hac := hb a ha
          simp only [List.mem_cons, List.mem_singleton, List.not_mem_nil, or_false] at hbm
          rcases hbm with rfl | rfl <;> simp [gerarId] <;> omega
      · intro m hm
        simp only [passo, onEnviarTexto, List.mem_append, List.mem_cons,
          List.mem_singleton, List.not_mem_nil, or_false] at hm ⊢
        rcases hm with hm | rfl | rfl
        · have := hb m hm
          omega
        · simp [gerarId]
        · simp [gerarId]
  | enviarArquivo arquivo provider tidU tsU tidA tsA =>
      constructor
      · refine List.pairwise_append.mpr ⟨hp, ?_, ?_⟩
        · simp [gerarId]
        · intro a ha b hbm
          have hac := hb a ha
          simp only [List.mem_cons, List.mem_singleton, List.not_mem_nil, or_false] at hbm
          rcases hbm with rfl | rfl <;> simp [gerarId] <;> omega
      · intro m hm
        simp only [passo, onEnviarArquivo, List.mem_append, List.mem_cons,
          List.mem_singleton, List.not_mem_nil, or_false] at hm ⊢
        rcases hm with hm | rfl | rfl
        · have := hb m hm
          omega
        · simp [gerarId]
        · simp [gerarId]
  | mudarProvider provider => exact ⟨hp, hb⟩
  | provedores resposta => exact ⟨hp, hb⟩
  | provedoresErro => exact ⟨hp, hb⟩
  | sucesso resultado mid provider =>
      constructor
      · refine (List.pairwise_map.mpr ?_)
        refine hp.imp ?_
        intro a b hab
        rwa [id_handleSucesso, id_handleSucesso]
      · intro m hm
        simp only [passo, handleSucesso, List.mem_map] at hm
        obtain ⟨m0, hm0, rfl⟩ := hm
        rw [id_handleSucesso]
        exact hb m0 hm0
  | erro detail mid =>
      constructor
      · refine (List.pairwise_map.mpr ?_)
        refine hp.imp ?_
        intro a b hab
        rwa [id_handleErro, id_handleErro]
      · intro m hm
        simp only [passo, handleErro, List.mem_map] at hm
        obtain ⟨m0, hm0, rfl⟩ := hm
        rw [id_handleErro]
        exact hb m0 hm0

theorem idsDisciplinados_executar (evs : List Evento) :
    ∀ s, idsDisciplinados s → idsDisciplinados (executar s evs) := by
  induction evs with
  | nil => intro s h; exact h
  | cons e resto ih =>
      intro s h
      exact ih (passo s e) (idsDisciplinados_passo s e h)

/-- In every reachable state the message ids are pairwise distinct. -/
theorem ids_distintos (evs : List Evento) :
    (executar estadoInicial evs).mensagens.Pairwise fun a b => a.id ≠ b.id := by
  refine ((idsDisciplinados_executar evs estadoInicial idsDisciplinados_inicial).1).imp ?_
  intro a b hab heq
  rw [heq] at hab
  exact lt_irrefl _ hab

end EmailClassifierChat

namespace EmailClassifierChat

theorem resultadosValidos_inicial : resultadosValidos estadoInicial := by
  intro m hm
  cases hm

theorem resultadosValidos_passo (s : ChatState) (e : Evento)
    (he : eventoBemFormado e = true) (h : resultadosValidos s) :
    resultadosValidos (passo s e) := by
  cases e with
  | enviarTexto conteudo provider tidU tsU tidA tsA =>
      intro m hm ht hc
      simp only [passo, onEnviarTexto, List.mem_append, List.mem_cons,
        List.mem_singleton, List.not_mem_nil, or_false] at hm
      rcases hm with hm | rfl | rfl
      · exact h m hm ht hc
      · simp at ht
      · simp at hc
  | enviarArquivo arquivo provider tidU tsU tidA tsA =>
      intro m hm ht hc
      simp only [passo, onEnviarArquivo, List.mem_append, List.mem_cons,
        List.mem_singleton, List.not_mem_nil, or_false] at hm
      rcases hm with hm | rfl | rfl
      · exact h m hm ht hc
      · simp at ht
      · simp at hc
  | mudarProvider provider => exact h
  | provedores resposta => exact h
  | provedoresErro => exact h
  | sucesso resultado mid provider =>
      simp only [eventoBemFormado, Bool.and_eq_true, decide_eq_true_eq] at he
      intro m hm ht hc
      simp only [passo, handleSucesso, List.mem_map] at hm
      obtain ⟨m0, hm0, rfl⟩ := hm
      by_cases hid : m0.id = mid
      · simp only [if_pos hid]
        exact ⟨resultado, rfl, he.1, he.2⟩
      · simp only [if_neg hid] at ht hc ⊢
        exact h m0 hm0 ht hc
  | erro detail mid =>
      intro m hm ht hc
      simp only [passo, handleErro, List.mem_map] at hm
      obtain ⟨m0, hm0, rfl⟩ := hm
      by_cases hid : m0.id = mid
      · simp only [if_pos hid]
        refine ⟨_, rfl, le_refl 0, ?_⟩
        norm_num
      · simp only [if_neg hid] at ht hc ⊢
        exact h m0 hm0 ht hc

theorem resultadosValidos_executar (evs : List Evento) :
    ∀ s, (∀ e ∈ evs, eventoBemFormado e = true) → resultadosValidos s →
      resultadosValidos (executar s evs) := by
  induction evs with
  | nil => intro s _ h; exact h
  | cons e resto ih =>
      intro s hwf h
      exact ih (passo s e)
        (fun x hx => hwf x (List.mem_cons_of_mem e hx))
        (resultadosValidos_passo s e (hwf e (List.mem_cons_self e resto)) h)

end EmailClassifierChat

namespace ChatInputComponent

theorem exclusivos_inicial : exclusivos inputInicial := by
  intro h
  rfl

theorem exclusivos_passo (s : InputState) (e : EventoInput)
    (h : exclusivos s) : exclusivos (passoInput s e) := by
  cases e with
  | selecionar arquivo =>
      simp only [passoInput, onArquivoSelecionado]
      split
      · exact h
      · split
        · exact h
        · intro _
          rfl
  | digitar texto =>
      intro hfile
      exact absurd rfl hfile
  | limpar =>
      intro hfile
      exact absurd rfl hfile
  | alternarMenu => exact h
  | fechar => exact h
  | clicarEnviar carregando provider =>
      simp only [passoInput, enviar]
      split
      · exact h
      · split
        · intro hfile
          exact absurd rfl hfile
        · intro hfile
          rfl

theorem exclusivos_executar (evs : List EventoInput) :
    ∀ s, exclusivos s → exclusivos (executarInput s evs) := by
  induction evs with
  | nil => intro s h; exact h
  | cons e resto ih =>
      intro s h
      exact ih (passoInput s e) (exclusivos_passo s e h)

end ChatInputComponent

namespace EmailClassifierChat

theorem armazenamento_constante (evs : List Evento) :
    ∀ b : EstadoNavegador,
      (executarNavegador b evs).historicoArmazenado = b.historicoArmazenado := by
  induction evs with
  | nil => intro b; rfl
  | cons e resto ih => intro b; exact ih (passoNavegador b e)

end EmailClassifierChat

open EmailClassifierChat ChatInputComponent

/-- C1: every `onEnviarTexto`/`onEnviarArquivo` call appends to the log
exactly a user message (with `conteudo` for text submissions; with
`arquivo = {nome, tamanho}` and no `conteudo` for file submissions)
followed by a pending assistant message with `carregando = true`, leaving
every prior entry unchanged; a resolution callback (`handleSucesso` or
`handleErro`) preserves the log length and keeps every entry whose id
differs from the resolved id, and message ids are pairwise distinct in
every reachable state, so a resolution can mutate only the single pending
entry its submission created. -/
theorem claim_C1 :
    (∀ (s : ChatState) (conteudo : String) (provider : AIProvider) (tidU tsU tidA tsA : Nat),
       (onEnviarTexto conteudo provider tidU tsU tidA tsA s).mensagens =
         s.mensagens ++
           [{ id := gerarId (s.messageIdCounter + 1) tidU
              tipo := .user
              conteudo := some conteudo
              timestamp := tsU },
            { id := gerarId (s.messageIdCounter + 2) tidA
              tipo := .ai
              provider := some provider
              timestamp := tsA
              carregando := some true
              emailOriginal := some conteudo }]) ∧
    (∀ (s : ChatState) (arquivo : Arquivo) (provider : AIProvider) (tidU tsU tidA tsA : Nat),
       (onEnviarArquivo arquivo provider tidU tsU tidA tsA s).mensagens =
         s.mensagens ++
           [{ id := gerarId (s.messageIdCounter + 1) tidU
              tipo := .user
              arquivo := some arquivo
              timestamp := tsU },
            { id := gerarId (s.messageIdCounter + 2) tidA
              tipo := .ai
              provider := some provider
              timestamp := tsA
              carregando := some true }]) ∧
    (∀ (s : ChatState) (r : ClassificacaoResultado) (mid : MsgId) (p : AIProvider),
       (handleSucesso r mid p s).mensagens.length = s.mensagens.length) ∧
    (∀ (s : ChatState) (d : Option String) (mid : MsgId),
       (handleErro d mid s).mensagens.length = s.mensagens.length) ∧
    (∀ (s : ChatState) (r : ClassificacaoResultado) (mid : MsgId) (p : AIProvider)
       (m : ChatMessage), m ∈ s.mensagens → m.id ≠ mid →
         m ∈ (handleSucesso r mid p s).mensagens) ∧
    (∀ (s : ChatState) (d : Option String) (mid : MsgId) (m : ChatMessage),
       m ∈ s.mensagens → m.id ≠ mid → m ∈ (handleErro d mid s).mensagens) ∧
    (∀ evs : List Evento,
       (executar estadoInicial evs).mensagens.Pairwise fun a b => a.id ≠ b.id) := by
  refine ⟨fun s conteudo provider tidU tsU tidA tsA => rfl,
          fun s arquivo provider tidU tsU tidA tsA => rfl,
          fun s r mid p => by simp [handleSucesso],
          fun s d mid => by simp [handleErro],
          ?_, ?_, ids_distintos⟩
  · intro s r mid p m hm hne
    exact List.mem_map.mpr ⟨m, hm, if_neg hne⟩
  · intro s d mid m hm hne
    exact List.mem_map.mpr ⟨m, hm, if_neg hne⟩

/-- C1 (witness): after submitting the text "oi" from the fresh session,
the user entry has id counter 1; resolving the assistant entry (id counter
2) leaves the user entry in the log untouched. -/
theorem claim_C1_witness :
    (({ id := ⟨1, 1⟩, tipo := .user, conteudo := some "oi", timestamp := 2 } : ChatMessage) ∈
       (onEnviarTexto "oi" .openai 1 2 3 4 estadoInicial).mensagens) ∧
    (({ id := ⟨1, 1⟩, tipo := .user, conteudo := some "oi", timestamp := 2 } : ChatMessage).id ≠
       (⟨2, 3⟩ : MsgId)) ∧
    (({ id := ⟨1, 1⟩, tipo := .user, conteudo := some "oi", timestamp := 2 } : ChatMessage) ∈
       (handleSucesso ⟨.produtivo, 1, "ok"⟩ ⟨2, 3⟩ .openai
         (onEnviarTexto "oi" .openai 1 2 3 4 estadoInicial)).mensagens) :=
  ⟨by decide, by decide,
   claim_C1.2.2.2.2.1 _ _ _ _ _ (by decide) (by decide)⟩

/-- C2: a resolution callback whose target id is absent from the log
leaves the log exactly as it was — no exception (the transition is a total
function), no entry appended or resurrected. -/
theorem claim_C2 (s : ChatState) (mid : MsgId)
    (h : ∀ m ∈ s.mensagens, m.id ≠ mid) :
    (∀ (r : ClassificacaoResultado) (p : AIProvider),
       (handleSucesso r mid p s).mensagens = s.mensagens) ∧
    (∀ d : Option String, (handleErro d mid s).mensagens = s.mensagens) := by
  constructor
  · intro r p
    exact mapa_intacto mid _ s.mensagens h
  · intro d
    exact mapa_intacto mid _ s.mensagens h

/-- C2 (witness): resolving id (2, 6) against a log holding only id (1, 5)
changes nothing. -/
theorem claim_C2_witness :
    (∀ m ∈ ([⟨⟨1, 5⟩, .user, some "a", none, none, none, 0, none, none⟩] : List ChatMessage),
       m.id ≠ (⟨2, 6⟩ : MsgId)) ∧
    (handleErro (some "x") ⟨2, 6⟩
        ⟨[⟨⟨1, 5⟩, .user, some "a", none, none, none, 0, none, none⟩], false, .openai, none, 2⟩).mensagens =
      [⟨⟨1, 5⟩, .user, some "a", none, none, none, 0, none, none⟩] :=
  ⟨by decide, (claim_C2 _ _ (by decide)).2 (some "x")⟩

/-- C3: a failed classify call resolves the targeted pending entry in
place with a synthetic failed outcome — `carregando` becomes `false`,
`confianca = 0`, and `resposta_sugerida` is the error-prefixed string
"❌ Erro: " followed by the error's human-readable detail whenever a
(non-empty) detail is present; the handler is a total state transition, so
no error escapes to a global handler. -/
theorem claim_C3 (s : ChatState) (mid : MsgId) (d : String) (hd : d ≠ "")
    (m : ChatMessage) (hm : m ∈ s.mensagens) (hmid : m.id = mid) :
    ∃ r : ClassificacaoResultado,
      r.confianca = 0 ∧
      (∃ pre, r.resposta_sugerida = pre ++ d) ∧
      { m with carregando := some false, resultado := some r } ∈
        (handleErro (some d) mid s).mensagens := by
  refine ⟨{ categoria := .improdutivo, confianca := 0,
            resposta_sugerida := "❌ Erro: " ++ d },
          rfl, ⟨"❌ Erro: ", rfl⟩, ?_⟩
  have hme : mensagemErro (some d) = d := by simp [mensagemErro, hd]
  simp only [handleErro, hme]
  exact atualizado_presente _ mid m hm hmid

/-- C3 (witness): a transport error with detail "rate limited" resolves
the pending entry of the first submission with confidence 0 and a
suggested reply containing "rate limited". -/
theorem claim_C3_witness :
    (("rate limited" : String) ≠ "") ∧
    ((⟨⟨2, 3⟩, .ai, none, none, none, some .openai, 4, some true, some "oi"⟩ : ChatMessage) ∈
       (onEnviarTexto "oi" .openai 1 2 3 4 estadoInicial).mensagens) ∧
    (∃ r : ClassificacaoResultado,
       r.confianca = 0 ∧
       (∃ pre, r.resposta_sugerida = pre ++ "rate limited") ∧
       { (⟨⟨2, 3⟩, .ai, none, none, none, some .openai, 4, some true, some "oi"⟩ : ChatMessage) with
           carregando := some false, resultado := some r } ∈
         (handleErro (some "rate limited") ⟨2, 3⟩
           (onEnviarTexto "oi" .openai 1 2 3 4 estadoInicial)).mensagens) :=
  ⟨by decide, by decide,
   claim_C3 _ ⟨2, 3⟩ "rate limited" (by decide) _ (by decide) rfl⟩

/-- C10: whatever the submitted content, provider or error, the synthetic
outcome `handleErro` writes into the targeted entry always has category
Improdutivo — the very value a genuine unproductive classification
carries. -/
theorem claim_C10 (s : ChatState) (detail : Option String) (mid : MsgId)
    (m : ChatMessage) (hm : m ∈ s.mensagens) (hmid : m.id = mid) :
    ∃ r : ClassificacaoResultado,
      r.categoria = .improdutivo ∧
      { m with carregando := some false, resultado := some r } ∈
        (handleErro detail mid s).mensagens :=
  ⟨{ categoria := .improdutivo, confianca := 0,
     resposta_sugerida := "❌ Erro: " ++ mensagemErro detail },
   rfl,
   atualizado_presente _ mid m hm hmid⟩

/-- C10 (witness): an error without detail resolves the pending entry of
the first submission with category Improdutivo. -/
theorem claim_C10_witness :
    ((⟨⟨2, 3⟩, .ai, none, none, none, some .openai, 4, some true, some "oi"⟩ : ChatMessage) ∈
       (onEnviarTexto "oi" .openai 1 2 3 4 estadoInicial).mensagens) ∧
    (∃ r : ClassificacaoResultado,
       r.categoria = .improdutivo ∧
       { (⟨⟨2, 3⟩, .ai, none, none, none, some .openai, 4, some true, some "oi"⟩ : ChatMessage) with
           carregando := some false, resultado := some r } ∈
         (handleErro none ⟨2, 3⟩
           (onEnviarTexto "oi" .openai 1 2 3 4 estadoInicial)).mensagens) :=
  ⟨by decide, claim_C10 _ none ⟨2, 3⟩ _ (by decide) rfl⟩

/-- C4: in every state reachable under the backend contract (success
callbacks deliver `confianca` within [0, 1]), every resolved assistant
entry holds an outcome (never a null result) whose `confianca` lies
within [0, 1]; and the synthetic error outcome always has
`confianca = 0`. -/
theorem claim_C4 (evs : List Evento)
    (hwf : ∀ e ∈ evs, eventoBemFormado e = true) :
    (∀ m ∈ (executar estadoInicial evs).mensagens,
       m.tipo = .ai → m.carregando = some false →
         ∃ r, m.resultado = some r ∧ 0 ≤ r.confianca ∧ r.confianca ≤ 1) ∧
    (∀ (s : ChatState) (detail : Option String) (mid : MsgId) (m : ChatMessage),
       m ∈ s.mensagens → m.id = mid →
         ∃ r, r.confianca = 0 ∧
           { m with carregando := some false, resultado := some r } ∈
             (handleErro detail mid s).mensagens) := by
  constructor
  · exact resultadosValidos_executar evs estadoInicial hwf resultadosValidos_inicial
  · intro s detail mid m hm hmid
    exact ⟨{ categoria := .improdutivo, confianca := 0,
             resposta_sugerida := "❌ Erro: " ++ mensagemErro detail },
           rfl, atualizado_presente _ mid m hm hmid⟩

/-- C4 (witness): after a submission and a well-formed success (confidence
1), the resolved entry holds an in-range outcome. -/
theorem claim_C4_witness :
    (∀ e ∈ ([.enviarTexto "oi" .openai 1 2 3 4,
             .sucesso ⟨.produtivo, 1, "ok"⟩ ⟨2, 3⟩ .openai] : List Evento),
       eventoBemFormado e = true) ∧
    ((⟨⟨2, 3⟩, .ai, none, none, some ⟨.produtivo, 1, "ok"⟩, some .openai, 4, some false,
        some "oi"⟩ : ChatMessage) ∈
       (executar estadoInicial
         [.enviarTexto "oi" .openai 1 2 3 4,
          .sucesso ⟨.produtivo, 1, "ok"⟩ ⟨2, 3⟩ .openai]).mensagens) ∧
    (∃ r, (⟨⟨2, 3⟩, .ai, none, none, some ⟨.produtivo, 1, "ok"⟩, some .openai, 4, some false,
        some "oi"⟩ : ChatMessage).resultado = some r ∧ 0 ≤ r.confianca ∧ r.confianca ≤ 1) :=
  ⟨by decide, by decide,
   (claim_C4 [.enviarTexto "oi" .openai 1 2 3 4,
              .sucesso ⟨.produtivo, 1, "ok"⟩ ⟨2, 3⟩ .openai] (by decide)).1
     _ (by decide) rfl rfl⟩

/-- C7 (counterexample): with two submissions outstanding, resolving the
first one sets the busy flag `carregando` to `false` although the second
submission's assistant entry is still pending — a reachable state with a
pending entry and a false busy flag, contradicting "busy is true whenever
any submission is outstanding". -/
theorem claim_C7_contraexemplo :
    (executar estadoInicial
        [.enviarTexto "a" .openai 0 0 0 0,
         .enviarTexto "b" .openai 0 0 0 0,
         .sucesso ⟨.produtivo, 1, "ok"⟩ ⟨2, 0⟩ .openai]).carregando = false ∧
    ∃ m ∈ (executar estadoInicial
        [.enviarTexto "a" .openai 0 0 0 0,
         .enviarTexto "b" .openai 0 0 0 0,
         .sucesso ⟨.produtivo, 1, "ok"⟩ ⟨2, 0⟩ .openai]).mensagens,
      m.carregando = some true := by
  decide

/-- C7 (amended): the busy flag `carregando` is true immediately after
every submission and false immediately after every resolution callback,
regardless of other outstanding submissions — so the flag tracks pending
work only while at most one submission is outstanding, and the first
resolution clears it even if another entry is still pending. -/
theorem claim_C7 :
    (∀ (s : ChatState) (conteudo : String) (provider : AIProvider) (tidU tsU tidA tsA : Nat),
       (onEnviarTexto conteudo provider tidU tsU tidA tsA s).carregando = true) ∧
    (∀ (s : ChatState) (arquivo : Arquivo) (provider : AIProvider) (tidU tsU tidA tsA : Nat),
       (onEnviarArquivo arquivo provider tidU tsU tidA tsA s).carregando = true) ∧
    (∀ (s : ChatState) (r : ClassificacaoResultado) (mid : MsgId) (p : AIProvider),
       (handleSucesso r mid p s).carregando = false) ∧
    (∀ (s : ChatState) (d : Option String) (mid : MsgId),
       (handleErro d mid s).carregando = false) :=
  ⟨fun _ _ _ _ _ _ _ => rfl, fun _ _ _ _ _ _ _ => rfl,
   fun _ _ _ _ => rfl, fun _ _ _ => rfl⟩

/-- C6: the component under `frontend/src/app` performs no persistence —
construction ignores whatever the browser storage holds (the log always
starts empty), and no transition (submission, resolution, provider
change) ever writes the storage cell, which stays constant along every
run.  This refutes "persisted after every log mutation / initialized from
persisted storage". -/
theorem claim_C6 :
    (∀ historico : Option String, (construir historico).componente.mensagens = []) ∧
    (∀ (b : EstadoNavegador) (e : Evento),
       (passoNavegador b e).historicoArmazenado = b.historicoArmazenado) ∧
    (∀ (historico : Option String) (evs : List Evento),
       (executarNavegador (construir historico) evs).historicoArmazenado = historico) :=
  ⟨fun _ => rfl, fun _ _ => rfl,
   fun historico evs => armazenamento_constante evs (construir historico)⟩

namespace ChatInputComponent

theorem aceita (a : Arquivo) (s : InputState)
    (hc : formatosSuportados.contains (extensao a.nome) = true)
    (hs : a.tamanho ≤ 5242880) :
    onArquivoSelecionado a s =
      { s with arquivoSelecionado := some a, conteudoEmail := "", erro := none } := by
  have hne : extensao a.nome ≠ [] := by
    intro h0
    rw [h0] at hc
    exact absurd hc (by decide)
  have h1 : ¬(extensao a.nome = [] ∨ ¬ formatosSuportados.contains (extensao a.nome) = true) := by
    intro hor
    rcases hor with h0 | h0
    · exact hne h0
    · exact h0 hc
  have h2 : ¬ a.tamanho > 5 * 1024 * 1024 := by omega
  unfold onArquivoSelecionado
  rw [if_neg h1, if_neg h2]

theorem rejeitaFormato (a : Arquivo) (s : InputState)
    (hc : formatosSuportados.contains (extensao a.nome) = false) :
    onArquivoSelecionado a s =
      { s with
        erro := some ("Formato não suportado. Use arquivos .txt, .pdf, .eml, .msg ou .mbox") } := by
  unfold onArquivoSelecionado
  rw [if_pos (Or.inr (by intro h0; simp [List.elem_iff] at hc h0; exact hc h0))]

theorem rejeitaTamanho (a : Arquivo) (s : InputState) (hs : a.tamanho > 5242880) :
    (onArquivoSelecionado a s).arquivoSelecionado = s.arquivoSelecionado ∧
    (onArquivoSelecionado a s).conteudoEmail = s.conteudoEmail := by
  unfold onArquivoSelecionado
  by_cases h1 : (extensao a.nome = [] ∨ ¬ formatosSuportados.contains (extensao a.nome) = true)
  · rw [if_pos h1]
    exact ⟨rfl, rfl⟩
  · rw [if_neg h1, if_pos (by omega : a.tamanho > 5 * 1024 * 1024)]
    exact ⟨rfl, rfl⟩

theorem splitDot_sem_ponto :
    ∀ cs : List Char, ('.' : Char) ∉ cs → splitDot cs = [cs] := by
  intro cs h
  induction cs with
  | nil => rfl
  | cons c resto ih =>
      have hc : ¬ c = '.' := fun h0 => h (h0 ▸ List.mem_cons_self c resto)
      have hr := ih fun hm => h (List.mem_cons_of_mem c hm)
      simp [splitDot, hc, hr]

theorem extensao_sem_ponto (nome : String) (h : ('.' : Char) ∉ nome.toList) :
    extensao nome = nome.toList.map Char.toLower := by
  unfold extensao
  rw [splitDot_sem_ponto nome.toList h]
  simp

end ChatInputComponent

/-- C5: file validation rejects a file whose extension (last dot-separated
group, lowercased) is outside the allowlist, rejects a file over 5242880
bytes, and stages the file otherwise; concretely, "virus.exe" and a 6 MiB
.txt file are rejected, while a 4 MiB .pdf and a 100-byte .eml are
accepted. -/
theorem claim_C5 :
    (∀ (a : Arquivo) (s : InputState),
       formatosSuportados.contains (extensao a.nome) = false →
         (onArquivoSelecionado a s).arquivoSelecionado = s.arquivoSelecionado) ∧
    (∀ (a : Arquivo) (s : InputState),
       a.tamanho > 5242880 →
         (onArquivoSelecionado a s).arquivoSelecionado = s.arquivoSelecionado) ∧
    (∀ (a : Arquivo) (s : InputState),
       formatosSuportados.contains (extensao a.nome) = true → a.tamanho ≤ 5242880 →
         (onArquivoSelecionado a s).arquivoSelecionado = some a) ∧
    (onArquivoSelecionado ⟨"virus.exe", 100⟩ inputInicial).arquivoSelecionado = none ∧
    (onArquivoSelecionado ⟨"grande.txt", 6 * 1024 * 1024⟩ inputInicial).arquivoSelecionado = none ∧
    (onArquivoSelecionado ⟨"doc.pdf", 4 * 1024 * 1024⟩ inputInicial).arquivoSelecionado =
      some ⟨"doc.pdf", 4 * 1024 * 1024⟩ ∧
    (onArquivoSelecionado ⟨"m.eml", 100⟩ inputInicial).arquivoSelecionado = some ⟨"m.eml", 100⟩ := by
  refine ⟨?_, ?_, ?_, by decide, by decide, by decide, by decide⟩
  · intro a s hc
    rw [rejeitaFormato a s hc]
  · intro a s hs
    exact (rejeitaTamanho a s hs).1
  · intro a s hc hs
    rw [aceita a s hc hs]

/-- C5 (witness): the 4 MiB "doc.pdf" satisfies both validation
hypotheses and is staged. -/
theorem claim_C5_witness :
    formatosSuportados.contains (extensao (Arquivo.nome ⟨"doc.pdf", 4 * 1024 * 1024⟩)) = true ∧
    Arquivo.tamanho ⟨"doc.pdf", 4 * 1024 * 1024⟩ ≤ 5242880 ∧
    (onArquivoSelecionado ⟨"doc.pdf", 4 * 1024 * 1024⟩ inputInicial).arquivoSelecionado =
      some ⟨"doc.pdf", 4 * 1024 * 1024⟩ :=
  ⟨by decide, by decide,
   claim_C5.2.2.1 ⟨"doc.pdf", 4 * 1024 * 1024⟩ inputInicial (by decide) (by decide)⟩

/-- C9 (counterexample): "TXT" is a dotless filename distinct from each of
txt, pdf, eml, msg and mbox, yet a 10-byte file named "TXT" is accepted
(staged) — the claim as stated demands its rejection. -/
theorem claim_C9_contraexemplo :
    (('.' : Char) ∉ ("TXT" : String).toList) ∧
    (("TXT" : String) ∉ (["txt", "pdf", "eml", "msg", "mbox"] : List String)) ∧
    (onArquivoSelecionado ⟨"TXT", 10⟩ inputInicial).arquivoSelecionado = some ⟨"TXT", 10⟩ := by
  decide

/-- C9 (amended): for a dotless filename the whole lowercased name is the
extension: the file is accepted (subject to the size limit) exactly when
that lowercased name is in the allowlist, and rejected otherwise — so
"txt"/"pdf"/"eml"/"msg"/"mbox" and their case variants are accepted, every
other dotless name rejected. -/
theorem claim_C9 (nome : String) (tamanho : Nat) (s : InputState)
    (h : ('.' : Char) ∉ nome.toList) :
    (extensao nome = nome.toList.map Char.toLower) ∧
    (formatosSuportados.contains (nome.toList.map Char.toLower) = true → tamanho ≤ 5242880 →
       (onArquivoSelecionado ⟨nome, tamanho⟩ s).arquivoSelecionado = some ⟨nome, tamanho⟩) ∧
    (formatosSuportados.contains (nome.toList.map Char.toLower) = false →
       (onArquivoSelecionado ⟨nome, tamanho⟩ s).arquivoSelecionado = s.arquivoSelecionado) := by
  have he := extensao_sem_ponto nome h
  refine ⟨he, ?_, ?_⟩
  · intro hc hs
    rw [aceita ⟨nome, tamanho⟩ s (by rw [show extensao (Arquivo.nome ⟨nome, tamanho⟩) = extensao nome from rfl, he]; exact hc) hs]
  · intro hc
    rw [rejeitaFormato ⟨nome, tamanho⟩ s (by rw [show extensao (Arquivo.nome ⟨nome, tamanho⟩) = extensao nome from rfl, he]; exact hc)]

/-- C9 (witness): the dotless name "txt" (10 bytes) is accepted. -/
theorem claim_C9_witness :
    (('.' : Char) ∉ ("txt" : String).toList) ∧
    formatosSuportados.contains (("txt" : String).toList.map Char.toLower) = true ∧
    (10 : Nat) ≤ 5242880 ∧
    (onArquivoSelecionado ⟨"txt", 10⟩ inputInicial).arquivoSelecionado = some ⟨"txt", 10⟩ :=
  ⟨by decide, by decide, by decide,
   (claim_C9 "txt" 10 inputInicial (by decide)).2.1 (by decide) (by decide)⟩

/-- C8: staged text and staged file are mutually exclusive — accepting a
file clears the staged text (and stages the file), staging text clears a
previously staged file (modelled from the spec, see `digitarTexto`), the
exclusivity holds in every reachable input state, and at the moment of
submission the emitted payload is a file only when no text is staged and
text only when no file is staged — never both. -/
theorem claim_C8 :
    (∀ (a : Arquivo) (s : InputState),
       formatosSuportados.contains (extensao a.nome) = true → a.tamanho ≤ 5242880 →
         (onArquivoSelecionado a s).conteudoEmail = "" ∧
         (onArquivoSelecionado a s).arquivoSelecionado = some a) ∧
    (∀ (texto : String) (s : InputState),
       (digitarTexto texto s).arquivoSelecionado = none ∧
       (digitarTexto texto s).conteudoEmail = texto) ∧
    (∀ evs : List EventoInput,
       (executarInput inputInicial evs).arquivoSelecionado ≠ none →
         (executarInput inputInicial evs).conteudoEmail = "") ∧
    (∀ (carregando : Bool) (provider : AIProvider) (s : InputState) (conteudo : String),
       (enviar carregando provider s).1 = some (.texto conteudo provider) →
         s.arquivoSelecionado = none) ∧
    (∀ (carregando : Bool) (provider : AIProvider) (s : InputState) (a : Arquivo),
       (s.arquivoSelecionado ≠ none → s.conteudoEmail = "") →
       (enviar carregando provider s).1 = some (.arquivoEscolhido a provider) →
         s.conteudoEmail = "") := by
  refine ⟨?_, fun texto s => ⟨rfl, rfl⟩, ?_, ?_, ?_⟩
  · intro a s hc hs
    rw [aceita a s hc hs]
    exact ⟨rfl, rfl⟩
  · intro evs
    exact exclusivos_executar evs inputInicial exclusivos_inicial
  · intro carregando provider s conteudo hemit
    cases harq : s.arquivoSelecionado with
    | none => rfl
    | some a =>
        unfold enviar at hemit
        rw [harq] at hemit
        split at hemit
        · simp at hemit
        · simp at hemit
  · intro carregando provider s a hinv hemit
    cases harq : s.arquivoSelecionado with
    | none =>
        unfold enviar at hemit
        rw [harq] at hemit
        split at hemit
        · simp at hemit
        · simp at hemit
    | some a2 =>
        exact hinv (by simp [harq])

/-- C8 (witness): typing "oi" and then choosing the valid file "a.txt"
leaves a staged file and an empty text buffer. -/
theorem claim_C8_witness :
    ((executarInput inputInicial
        [.digitar "oi", .selecionar ⟨"a.txt", 10⟩]).arquivoSelecionado ≠ none) ∧
    ((executarInput inputInicial
        [.digitar "oi", .selecionar ⟨"a.txt", 10⟩]).conteudoEmail = "") :=
  ⟨by decide,
   claim_C8.2.2.1 [.digitar "oi", .selecionar ⟨"a.txt", 10⟩] (by decide)⟩
